import Mathlib

/-!
Verification of the medicine-tracker reminder reconciliation engine and
offline action queue, shallowly embedded from the JavaScript sources
`src/services/notifications.js`, `src/services/offlineQueue.js`, and the
`markTaken` edge function.

Modelling conventions:
* JavaScript numbers are modelled as `Int` (minute arithmetic may go
  negative before the roll-over corrections, exactly as in the source).
* `AsyncStorage` keys that carry a per-day suffix (`todayKey()`) are
  modelled within a single calendar day, so the day component of a key is
  either dropped (sent flags: the map is "today's" flags) or passed as an
  explicit `day` string where the identifier itself embeds it.
* The OS notification registry (`expo-notifications`) is the list of
  identifiers of currently scheduled notifications.
* `Date.now()` timestamps are `Int` milliseconds; the wall-clock instant
  used by the future-only gate is the millisecond offset from local
  midnight of the current day, since `triggerDate.setHours(h, m, 0, 0)`
  builds today's date at that wall-clock time.
-/

/-- JS `n.toString().padStart(2, '0')` for an integer. -/
def pad2 (n : Int) : String :=
  let s := toString n
  if s.length < 2 then "0" ++ s else s

/-- JS `String.prototype.startsWith`, code-unit semantics over `.data`. -/
def strStartsWith (s p : String) : Bool :=
  p.data.isPrefixOf s.data

/-- Occurrence of `sub` inside `hay` (JS `String.prototype.includes`). -/
def hasSubstr (sub : List Char) : List Char → Bool
  | [] => sub.isEmpty
  | c :: t => sub.isPrefixOf (c :: t) || hasSubstr sub t

/-- JS `s.includes(sub)`. -/
def strIncludes (s sub : String) : Bool :=
  hasSubstr sub.data s.data

/-- A wall-clock time parsed from an `"HH:MM"` string by
`time.split(':').map(Number)` (the source always consumes the two parsed
numbers, never the raw string, except through `normalizeTimeId`). -/
structure HM where
  h : Int
  m : Int
deriving DecidableEq, Repr

/-- Model of `normalizeTimeId` from notifications.js: re-render the parsed time as
zero-padded `HH:MM`. -/
def normalizeTimeId (t : HM) : String :=
  pad2 t.h ++ ":" ++ pad2 t.m

/-- The four deterministic notification identifiers derived for one
(medicineId, time) pair (`getNotificationIds` in notifications.js). -/
structure NotifIds where
  pre : String
  due : String
  post : String
  summary : String
deriving DecidableEq, Repr

def getNotificationIds (medicineId : String) (t : HM) : NotifIds :=
  let normalizedTime := normalizeTimeId t
  { pre := medicineId ++ "-" ++ normalizedTime ++ "-" ++ "pre"
    due := medicineId ++ "-" ++ normalizedTime ++ "-" ++ "due"
    post := medicineId ++ "-" ++ normalizedTime ++ "-" ++ "post"
    summary := medicineId ++ "-" ++ normalizedTime ++ "-" ++ "summary" }

/-- The `pre` trigger computation in `scheduleAllRemindersForMedicine`:
`preMinute = minutes - 5`, borrow an hour when negative, wrap the hour at
the day boundary. -/
def preTrigger (hours minutes : Int) : Int × Int :=
  let preHour := hours
  let preMinute := minutes - 5
  let pm := if preMinute < 0 then preMinute + 60 else preMinute
  let ph := if preMinute < 0 then preHour - 1 else preHour
  let ph := if ph < 0 then ph + 24 else ph
  (ph, pm)

/-- The `post` trigger computation: `postMinute = minutes + 5`, carry into
the hour at 60, wrap the hour at 24. -/
def postTrigger (hours minutes : Int) : Int × Int :=
  let postHour := hours
  let postMinute := minutes + 5
  let pm := if postMinute ≥ 60 then postMinute - 60 else postMinute
  let ph := if postMinute ≥ 60 then postHour + 1 else postHour
  let ph := if ph ≥ 24 then ph - 24 else ph
  (ph, pm)

/-- One entry of the desired notification set: identifier plus the
daily-repeating wall-clock trigger (`{ hour, minute, repeats: true }`). -/
structure Item where
  id : String
  hour : Int
  minute : Int
deriving DecidableEq, Repr

/-- Millisecond offset from local midnight of an item's trigger instant
for today (`triggerDate.setHours(hour, minute, 0, 0)`). -/
def triggerMs (it : Item) : Int :=
  (it.hour * 60 + it.minute) * 60000

/-- The three per-time reminder entries (`pre`, `due`, `post`) enumerated
by the Dose Reminder Scheduler; the per-medicine summary entry is removed
in the source ("Removed per-medicine summary to prevent flooding"). -/
def itemsForTime (medicineId : String) (t : HM) : List Item :=
  let ids := getNotificationIds medicineId t
  let p := preTrigger t.h t.m
  let q := postTrigger t.h t.m
  [ { id := ids.pre, hour := p.1, minute := p.2 }
  , { id := ids.due, hour := t.h, minute := t.m }
  , { id := ids.post, hour := q.1, minute := q.2 } ]

/- ------------------------------------------------------------------ -/
/- Offline action queue (`src/services/offlineQueue.js`).              -/
/- ------------------------------------------------------------------ -/

/-- Model of `processQueue(processor)`: if disconnected, no-op returning the whole
persisted queue as remaining; otherwise iterate the persisted queue in
order, invoking the processor on each action, keeping the failing ones.
The processor is modelled as a success predicate (`true` = the call
completed without error, `false` = it threw).  Returns
`(new persisted queue, processed count, invocation trace)`; the source
writes the remaining list back to `AsyncStorage` under `QUEUE_KEY`. -/
def drainLoop {α : Type} (proc : α → Bool) : List α → List α × Nat × List α
  | [] => ([], 0, [])
  | a :: rest =>
    let ok := proc a
    let r := drainLoop proc rest
    (if ok then r.1 else a :: r.1, if ok then r.2.1 + 1 else r.2.1, a :: r.2.2)

def processQueue {α : Type} (connected : Bool) (proc : α → Bool)
    (stored : List α) : List α × Nat × List α :=
  if connected then drainLoop proc stored else (stored, 0, [])

/- ------------------------------------------------------------------ -/
/- Reconciliation pass (`scheduleAllRemindersForMedicine`).            -/
/- ------------------------------------------------------------------ -/

/-- The fields of a medicine row consumed by the engine.  `quantity` and
`refill_threshold` are `Option` because the source checks
`medicine.quantity === undefined` and applies `|| 5` to the threshold. -/
structure Medicine where
  id : String
  name : String
  times : List HM
  quantity : Option Int
  refill_threshold : Option Int
deriving Repr

/-- The per-medicine ownership test applied to a live notification:
`n.identifier.startsWith(medicineId + "-") || n.identifier.includes(medicineId)`. -/
def belongsTo (medicineId ident : String) : Bool :=
  strStartsWith ident (medicineId ++ "-") || strIncludes ident medicineId

/-- The two flood-protection gates: the future-only gate (skip when
`triggerDate < now`) and the already-sent gate
(`hasNotificationBeenSentToday`, i.e. today's persisted sent flag). -/
def gateKeep (now : Int) (sent : String → Bool) (it : Item) : Bool :=
  !(triggerMs it < now) && !(sent it.id)

/-- The gated desired set for one medicine: all `pre`/`due`/`post`
entries of every configured time that survive both gates
(`expectedIds` / `notificationsToSchedule` in the source, which hold the
same entries). -/
def desiredItems (m : Medicine) (now : Int) (sent : String → Bool) : List Item :=
  m.times.flatMap (fun t => (itemsForTime m.id t).filter (gateKeep now sent))

/-- Result of one reconciliation pass: the OS registry afterwards, plus
the traces of `cancelScheduledNotificationAsync` and
`scheduleNotificationAsync` calls it issued. -/
structure PassResult where
  live : List String
  cancelCalls : List String
  schedCalls : List String
deriving Repr

/-- Scheduling with a given identifier replaces any entry with the same
identifier, so the registry stays duplicate-free. -/
def insertLive (l : List String) (i : String) : List String :=
  if l.contains i then l else l ++ [i]

/-- Model of `markNotificationAsSentToday`: set today's persisted sent flag for
one identifier (the storage key is `notification_sent_<id>_<today>`; the
map is today's slice of those keys). -/
def markNotificationAsSentToday (sent : String → Bool) (id : String) :
    String → Bool :=
  fun key => if key = id then true else sent key

/-- The `expectedIds` of the pass: identifiers of the gated desired set. -/
def expectedIds (m : Medicine) (now : Int) (sent : String → Bool) : List String :=
  (desiredItems m now sent).map Item.id

/-- The `medicineNotifications` of the pass: the live entries belonging to
this medicine (also used as `existingIdSet`, computed before any
cancellation). -/
def medicineNotifs (m : Medicine) (live : List String) : List String :=
  live.filter (fun i => belongsTo m.id i)

/-- Step 4 of the pass: the belonging live entries that are not in the
expected set, each of which receives one cancel call. -/
def toCancel (m : Medicine) (now : Int) (sent : String → Bool)
    (live : List String) : List String :=
  (medicineNotifs m live).filter (fun i => !((expectedIds m now sent).contains i))

/-- The OS registry after the cancel loop: an entry survives iff it does
not belong to the medicine or is expected. -/
def liveAfterCancel (m : Medicine) (now : Int) (sent : String → Bool)
    (live : List String) : List String :=
  live.filter (fun i => !(belongsTo m.id i) || (expectedIds m now sent).contains i)

/-- Step 5 of the pass: the desired entries absent from the
pre-cancellation `existingIdSet`, each of which receives one schedule
call. -/
def toSchedule (m : Medicine) (now : Int) (sent : String → Bool)
    (live : List String) : List Item :=
  (desiredItems m now sent).filter
    (fun it => !((medicineNotifs m live).contains it.id))

/-- One run of `scheduleAllRemindersForMedicine` over the OS registry
`live` at wall-clock offset `now`, with today's sent flags `sent`:
guard on a missing id or empty times; compute the gated desired set;
cancel every live entry belonging to the medicine that is not expected;
schedule every desired entry not already present among the medicine's
live entries. -/
def scheduleAllRemindersForMedicine (m : Medicine) (now : Int)
    (sent : String → Bool) (live : List String) : PassResult :=
  if m.id == "" || m.times.isEmpty then
    { live := live, cancelCalls := [], schedCalls := [] }
  else
    { live := (toSchedule m now sent live).foldl (fun l it => insertLive l it.id)
        (liveAfterCancel m now sent live)
      cancelCalls := toCancel m now sent live
      schedCalls := (toSchedule m now sent live).map Item.id }

/- ------------------------------------------------------------------ -/
/- Stock alert monitor (`checkAndSendStockAlerts` and the senders).    -/
/- ------------------------------------------------------------------ -/

/-- Durable state read and written by the stock alert code:
`last_stock_alert_<id>` timestamps (gate of `checkAndSendStockAlerts`
and of `sendLowStockAlert`, which use the same key),
`last_out_of_stock_<id>` timestamps (gate of `sendOutOfStockAlert`),
and today's sent flags (each sender marks its identifier sent). -/
structure StockState where
  lastStockAlert : String → Option Int
  lastOutOfStock : String → Option Int
  sent : String → Bool

/-- The cooldown constant `COOLDOWN = 24 * 60 * 60 * 1000`. -/
def COOLDOWN : Int := 24 * 60 * 60 * 1000

inductive StockAlert
  | low (medicineId : String) (currentQuantity threshold : Int)
  | out (medicineId : String)
deriving DecidableEq, Repr

/-- Model of `AsyncStorage.setItem` on a timestamp key. -/
def setTimestamp (f : String → Option Int) (k : String) (v : Int) :
    String → Option Int :=
  fun x => if x = k then some v else f x

/-- The repeated gate `last && (now - parseInt(last, 10)) < COOLDOWN`
(an absent record never suppresses). -/
def stockCooldownActive (f : String → Option Int) (medicineId : String)
    (now : Int) : Bool :=
  match f medicineId with
  | some last => decide (now - last < COOLDOWN)
  | none => false

/-- The effective threshold `medicine.refill_threshold || 5`: the JS `||` falls back to 5 when the
stored threshold is missing or zero (both falsy); any other integer,
including a negative one, is used as is. -/
def effThreshold (rt : Option Int) : Int :=
  match rt with
  | none => 5
  | some t => if t = 0 then 5 else t

/-- Model of `sendLowStockAlert`: gate on `last_stock_alert_<id>` (the same key
the outer evaluation uses); on emission record that timestamp and mark
the day-stamped alert identifier as sent today. -/
def sendLowStockAlert (st : StockState) (day medicineId : String)
    (currentQuantity threshold : Int) (now : Int) :
    StockState × Option StockAlert :=
  let id := "low-stock-" ++ medicineId ++ "-" ++ day
  if stockCooldownActive st.lastStockAlert medicineId now then (st, none)
  else
    ({ st with
        lastStockAlert := setTimestamp st.lastStockAlert medicineId now
        sent := markNotificationAsSentToday st.sent id },
      some (StockAlert.low medicineId currentQuantity threshold))

/-- Model of `sendOutOfStockAlert`: gate on `last_out_of_stock_<id>`; on emission
record that timestamp and mark the identifier as sent today. -/
def sendOutOfStockAlert (st : StockState) (day medicineId : String)
    (now : Int) : StockState × Option StockAlert :=
  let id := "out-of-stock-" ++ medicineId ++ "-" ++ day
  if stockCooldownActive st.lastOutOfStock medicineId now then (st, none)
  else
    ({ st with
        lastOutOfStock := setTimestamp st.lastOutOfStock medicineId now
        sent := markNotificationAsSentToday st.sent id },
      some (StockAlert.out medicineId))

/-- Model of `checkAndSendStockAlerts`: skip when quantity is undefined; gate on
the shared `last_stock_alert_<id>` record; then classify — zero quantity
sends the out-of-stock alert, positive quantity at most the effective
threshold sends the low-stock alert — and in either alert branch write
`last_stock_alert_<id> = now` afterwards (even when the inner sender
suppressed). -/
def checkAndSendStockAlerts (st : StockState) (day : String) (m : Medicine)
    (now : Int) : StockState × Option StockAlert :=
  match m.quantity with
  | none => (st, none)
  | some quantity =>
    let threshold := effThreshold m.refill_threshold
    if stockCooldownActive st.lastStockAlert m.id now then (st, none)
    else if quantity = 0 then
      let r := sendOutOfStockAlert st day m.id now
      ({ r.1 with lastStockAlert := setTimestamp r.1.lastStockAlert m.id now },
        r.2)
    else if quantity ≤ threshold ∧ 0 < quantity then
      let r := sendLowStockAlert st day m.id quantity threshold now
      ({ r.1 with lastStockAlert := setTimestamp r.1.lastStockAlert m.id now },
        r.2)
    else (st, none)

/- ------------------------------------------------------------------ -/
/- Concrete inputs used by witnesses and counterexamples.              -/
/- ------------------------------------------------------------------ -/

/-- Stock-alert state with no record at all. -/
def stockEmpty : StockState :=
  { lastStockAlert := fun _ => none, lastOutOfStock := fun _ => none,
    sent := fun _ => false }

/-- An out-of-stock medicine. -/
def medOut : Medicine :=
  { id := "m1", name := "med", times := [], quantity := some 0,
    refill_threshold := some 5 }

/-- A low-stock medicine (3 left, threshold 5). -/
def medLow3 : Medicine :=
  { id := "m1", name := "med", times := [], quantity := some 3,
    refill_threshold := some 5 }

/-- Quantity 3 with stored refill threshold 0 (falsy in JS). -/
def medThr0 : Medicine :=
  { id := "m1", name := "med", times := [], quantity := some 3,
    refill_threshold := some 0 }

/-- Sent-flag map with no flag set. -/
def sentNone : String → Bool := fun _ => false

/-- A medicine whose times list is empty (it fails the pass's guard). -/
def medNoTimes : Medicine :=
  { id := "m1", name := "med", times := [], quantity := none,
    refill_threshold := none }

/-- A medicine with a single 08:00 dose time. -/
def med1 : Medicine :=
  { id := "m1", name := "med", times := [⟨8, 0⟩], quantity := none,
    refill_threshold := none }

/-- An OS registry holding one stale entry for medicine `m1`. -/
def staleLive : List String := ["m1-09:00-due"]

/- ------------------------------------------------------------------ -/
/- Failure-injected reconciliation (C7).                               -/
/- ------------------------------------------------------------------ -/

/-- Injected failures of the external notification API: whether the
registry query (`getAllScheduledNotificationsAsync`) throws, and which
identifiers make `cancelScheduledNotificationAsync` resp.
`scheduleNotificationAsync` throw. -/
structure Fail where
  getAllFails : Bool
  cancelFails : String → Bool
  schedFails : String → Bool

/-- The cancel loop of the pass under failure injection.  The loop body
has no try/catch, so a throwing cancel call propagates, leaving the
earlier cancellations applied.  Returns the registry, the cancel-call
trace and whether the loop threw. -/
def cancelSeq (f : Fail) (live : List String) :
    List String → List String × List String × Bool
  | [] => (live, [], false)
  | i :: rest =>
    if f.cancelFails i then (live, [i], true)
    else
      let r := cancelSeq f (live.filter (fun x => !(x == i))) rest
      (r.1, i :: r.2.1, r.2.2)

/-- The schedule loop of the pass under failure injection.  Every
schedule call sits in its own try/catch ("Failed to schedule single
notification, continuing"), so a throwing call is logged but never
propagates. -/
def schedSeq (f : Fail) (existing : List String) :
    List Item → List String → List String × List String
  | [], live => (live, [])
  | it :: rest, live =>
    if existing.contains it.id then schedSeq f existing rest live
    else
      let live1 := if f.schedFails it.id then live else insertLive live it.id
      let r := schedSeq f existing rest live1
      (r.1, it.id :: r.2)

structure PassResultE where
  live : List String
  cancelCalls : List String
  schedCalls : List String
  threw : Bool
deriving Repr

/-- Model of `scheduleAllRemindersForMedicine` under failure injection.  Its body
sits in a try/catch that logs and then RE-THROWS (`throw error`), so a
failing registry query or cancel call escapes to the caller; only
per-item schedule failures are contained. -/
def scheduleAllRemindersE (f : Fail) (m : Medicine) (now : Int)
    (sent : String → Bool) (live : List String) : PassResultE :=
  if m.id == "" || m.times.isEmpty then
    { live := live, cancelCalls := [], schedCalls := [], threw := false }
  else if f.getAllFails then
    { live := live, cancelCalls := [], schedCalls := [], threw := true }
  else
    let c := cancelSeq f live (toCancel m now sent live)
    if c.2.2 then
      { live := c.1, cancelCalls := c.2.1, schedCalls := [], threw := true }
    else
      let s := schedSeq f (medicineNotifs m live) (desiredItems m now sent) c.1
      { live := s.1, cancelCalls := c.2.1, schedCalls := s.2, threw := false }

structure LoopResult where
  live : List String
  cancelCalls : List String
  schedCalls : List String
  attempted : Nat
deriving Repr

/-- The medicine loop of `rescheduleAllMedicineNotifications`: it has no
per-medicine try/catch, so a pass that throws aborts the loop for the
remaining medicines (the function's outer catch merely logs).
`attempted` counts the medicines whose pass was entered. -/
def reschedLoop (f : Fail) (now : Int) (sent : String → Bool) :
    List Medicine → List String → LoopResult
  | [], live => { live := live, cancelCalls := [], schedCalls := [], attempted := 0 }
  | m :: rest, live =>
    let r := scheduleAllRemindersE f m now sent live
    if r.threw then
      { live := r.live, cancelCalls := r.cancelCalls,
        schedCalls := r.schedCalls, attempted := 1 }
    else
      let r2 := reschedLoop f now sent rest r.live
      { live := r2.live, cancelCalls := r.cancelCalls ++ r2.cancelCalls,
        schedCalls := r.schedCalls ++ r2.schedCalls,
        attempted := r2.attempted + 1 }

structure StockResultE where
  st : StockState
  alert : Option StockAlert
  threw : Bool

/-- Model of `checkAndSendStockAlerts` under failure injection.  A failing
schedule call inside a sender is rethrown by the sender but caught by
the evaluation's own catch clause (which only logs and does not
rethrow), so the evaluation never propagates an error; on such a caught
failure no timestamp is written (the write follows the throwing call). -/
def checkAndSendStockAlertsE (f : Fail) (st : StockState) (day : String)
    (m : Medicine) (now : Int) : StockResultE :=
  match m.quantity with
  | none => { st := st, alert := none, threw := false }
  | some quantity =>
    let threshold := effThreshold m.refill_threshold
    if stockCooldownActive st.lastStockAlert m.id now then
      { st := st, alert := none, threw := false }
    else if quantity = 0 then
      if stockCooldownActive st.lastOutOfStock m.id now then
        { st := { st with lastStockAlert := setTimestamp st.lastStockAlert m.id now },
          alert := none, threw := false }
      else if f.schedFails ("out-of-stock-" ++ m.id ++ "-" ++ day) then
        { st := st, alert := none, threw := false }
      else
        let r := sendOutOfStockAlert st day m.id now
        { st := { r.1 with lastStockAlert := setTimestamp r.1.lastStockAlert m.id now },
          alert := r.2, threw := false }
    else if quantity ≤ threshold ∧ 0 < quantity then
      if f.schedFails ("low-stock-" ++ m.id ++ "-" ++ day) then
        { st := st, alert := none, threw := false }
      else
        let r := sendLowStockAlert st day m.id quantity threshold now
        { st := { r.1 with lastStockAlert := setTimestamp r.1.lastStockAlert m.id now },
          alert := r.2, threw := false }
    else { st := st, alert := none, threw := false }

/- ------------------------------------------------------------------ -/
/- Sync reconciler (`syncOfflineQueue`), C8.                           -/
/- ------------------------------------------------------------------ -/

/-- A queued action (`{ type, payload, createdAt }`); the payload is
left abstract here. -/
inductive QAction
  | upsertMedicine (payload : String)
  | markTaken (payload : String)
deriving DecidableEq, Repr

/-- Outcome of the remote call performed while replaying one action. -/
inductive RemoteOutcome
  | ok
  | alreadyTakenRejection
  | otherRejection
  | networkFailure
deriving DecidableEq, Repr

/-- What `supabase.functions.invoke` / `.upsert` resolve to: the
supabase-js v2 client returns `{ data, error }` and does not throw —
HTTP, relay and fetch errors all arrive in the `error` field.  (The
repository itself relies on this: call sites that want an exception
check `if (error) throw error`, e.g. in `saveMedicine`; the queue
processor performs no such check.) -/
def invokeHasError (o : RemoteOutcome) : Bool :=
  match o with
  | RemoteOutcome.ok => false
  | _ => true

/-- The processor `syncOfflineQueue` hands to `processQueue`: it awaits
the remote call and discards the resolved result, so it completes
without throwing for every remote outcome. -/
def syncProcessor (remote : QAction → RemoteOutcome) (a : QAction) : Bool :=
  match a with
  | QAction.upsertMedicine _ => let _ := invokeHasError (remote a); true
  | QAction.markTaken _ => let _ := invokeHasError (remote a); true

/- ------------------------------------------------------------------ -/
/- Direct `markDoseTaken` (C9).                                        -/
/- ------------------------------------------------------------------ -/

/-- The `time_scheduled` of an existing dose-log row: absent (such rows
never match), a plain `HH:MM` string (no `T` in it), or an ISO
timestamp, from which local hours and minutes are extracted. -/
inductive LogSlot
  | missing
  | plain (s : String)
  | isoLocal (h m : Int)
deriving DecidableEq, Repr

/-- The slot comparison of the already-taken check: ISO rows are
re-rendered as zero-padded `HH:MM` local time, then compared with
`scheduledTime`. -/
def slotMatches (l : LogSlot) (scheduledTime : String) : Bool :=
  match l with
  | LogSlot.missing => false
  | LogSlot.plain s => s == scheduledTime
  | LogSlot.isoLocal h m => (pad2 h ++ ":" ++ pad2 m) == scheduledTime

/-- Everything the direct call reads from its collaborators.
`existingTaken` holds today's stored `status='taken'` rows for the
medicine with the `time_scheduled` slot they carry in the database; the
duplicate-check query projects them through `selectIdOnly` below before
the filter runs.  `remoteWriteFails` models the first remote write of
the success path (the log insert) failing; later-stage failures are not
distinguished because no claim depends on them. -/
structure MarkCtx where
  hasSession : Bool
  medicineTimes : Option (List String)
  existingTaken : List LogSlot
  remoteWriteFails : Bool
deriving DecidableEq, Repr

/-- The duplicate-check query is `.select('id')`: it fetches only the
`id` column, so every row it hands to the filter carries no
`time_scheduled`, whatever is stored. -/
def selectIdOnly (rows : List LogSlot) : List LogSlot :=
  rows.map (fun _ => LogSlot.missing)

inductive MarkErr
  | noUser
  | medicineFetch
  | notScheduled
  | alreadyTaken
  | remoteWrite
deriving DecidableEq, Repr

/-- The catch clause `err.message.includes('already been taken') ||
err.message.includes('not scheduled')`: exactly the two validation
errors carry those fixed needles in their message text, so exactly they
are rethrown as terminal. -/
def isTerminalErr (e : MarkErr) : Bool :=
  match e with
  | MarkErr.notScheduled => true
  | MarkErr.alreadyTaken => true
  | _ => false

/-- How the call returned: `{success:true, offline:false}`,
`{success:true, offline:true, error}` after the offline fallback, or a
rethrown error. -/
inductive MarkOutcome
  | okOnline
  | okOffline (cause : MarkErr)
  | thrown (e : MarkErr)
deriving DecidableEq, Repr

structure MarkResult where
  inserted : Bool
  decremented : Bool
  enqueued : Bool
  outcome : MarkOutcome
deriving DecidableEq, Repr

/-- The try-block of `markDoseTaken` up to its first failure: session
check; with a `scheduledTime`, fetch the medicine's times, validate slot
membership, run the already-taken check over the rows returned by the
id-only duplicate query; then the remote writes.  Because of the
`selectIdOnly` projection the check can never fire. -/
def markDoseTakenBody (ctx : MarkCtx) (scheduledTime : Option String) :
    Except MarkErr Unit :=
  if ¬ ctx.hasSession then Except.error MarkErr.noUser
  else
    match scheduledTime with
    | none =>
      if ctx.remoteWriteFails then Except.error MarkErr.remoteWrite
      else Except.ok ()
    | some t =>
      match ctx.medicineTimes with
      | none => Except.error MarkErr.medicineFetch
      | some times =>
        if ¬ (times.contains t = true) then Except.error MarkErr.notScheduled
        else if (selectIdOnly ctx.existingTaken).any (fun l => slotMatches l t) then
          Except.error MarkErr.alreadyTaken
        else if ctx.remoteWriteFails then Except.error MarkErr.remoteWrite
        else Except.ok ()

/-- Model of `markDoseTaken`: run the body; on success report the online result
(log inserted, quantity decremented); on a terminal validation error
rethrow with no effects and no enqueue; on any other error fall back to
the offline path — optimistic temp log, best-effort local cancels, and
`enqueueAction({type:'MARK_TAKEN', ...})`. -/
def markDoseTaken (ctx : MarkCtx) (scheduledTime : Option String) : MarkResult :=
  match markDoseTakenBody ctx scheduledTime with
  | Except.ok _ =>
    { inserted := true, decremented := true, enqueued := false,
      outcome := MarkOutcome.okOnline }
  | Except.error e =>
    if isTerminalErr e then
      { inserted := false, decremented := false, enqueued := false,
        outcome := MarkOutcome.thrown e }
    else
      { inserted := false, decremented := false, enqueued := true,
        outcome := MarkOutcome.okOffline e }

/- ------------------------------------------------------------------ -/
/- `rescheduleAllMedicineNotifications` top level (C10).               -/
/- ------------------------------------------------------------------ -/

/-- JS `split('T')[0]` of an ISO string: the prefix before the first `T`
(the calendar-day part). -/
def dayPart (s : String) : String :=
  String.mk (s.data.takeWhile (fun c => !(c == 'T')))

/-- The durable state touched by the top-level reschedule: the OS
registry, today's sent flags, and the `last_notification_reschedule`
ISO string. -/
structure AppState where
  live : List String
  sent : String → Bool
  lastReschedule : Option String

structure ReschedResult where
  state : AppState
  cancelCalls : List String
  schedCalls : List String

/-- Model of `rescheduleAllMedicineNotifications`: return unchanged if the stored
`last_notification_reschedule` has today's date part, or there is no
session, or the medicines fetch errored or came back empty; otherwise
run the per-medicine pass over every medicine in order, schedule the
single per-user daily summary if missing, and record the reschedule
timestamp. -/
def rescheduleAllMedicineNotifications (st : AppState) (today nowIso : String)
    (now : Int) (session : Option String)
    (medicines : Option (List Medicine)) : ReschedResult :=
  let skip :=
    match st.lastReschedule with
    | some last => dayPart last == today
    | none => false
  if skip then { state := st, cancelCalls := [], schedCalls := [] }
  else
    match session with
    | none => { state := st, cancelCalls := [], schedCalls := [] }
    | some userId =>
      match medicines with
      | none => { state := st, cancelCalls := [], schedCalls := [] }
      | some meds =>
        if meds.isEmpty then { state := st, cancelCalls := [], schedCalls := [] }
        else
          let step := fun (acc : List String × List String × List String)
              (m : Medicine) =>
            let r := scheduleAllRemindersForMedicine m now st.sent acc.1
            (r.live, acc.2.1 ++ r.cancelCalls, acc.2.2 ++ r.schedCalls)
          let folded := meds.foldl step (st.live, [], [])
          let summaryId := "daily-summary-" ++ userId
          let hasSummary := folded.1.contains summaryId
          { state :=
              { live := if hasSummary then folded.1 else folded.1 ++ [summaryId]
                sent := st.sent
                lastReschedule := some nowIso }
            cancelCalls := folded.2.1
            schedCalls := folded.2.2 ++ (if hasSummary then [] else [summaryId]) }

/- ------------------------------------------------------------------ -/
/- Further concrete inputs for witnesses and counterexamples.          -/
/- ------------------------------------------------------------------ -/

/-- Medicine `a1` with a 09:00 dose (all its triggers lie in the past at
noon). -/
def medA : Medicine :=
  { id := "a1", name := "medA", times := [⟨9, 0⟩], quantity := none,
    refill_threshold := none }

/-- Medicine `b1` with a 20:00 dose (its triggers lie in the future at
noon). -/
def medB : Medicine :=
  { id := "b1", name := "medB", times := [⟨20, 0⟩], quantity := none,
    refill_threshold := none }

/-- A registry holding one stale entry of medicine `a1`. -/
def staleLiveA : List String := ["a1-09:00-due"]

/-- Failure injection that makes exactly the cancel call for the stale
`a1` entry throw. -/
def failCancelA : Fail :=
  { getAllFails := false
    cancelFails := fun i => i == "a1-09:00-due"
    schedFails := fun _ => false }

/-- Noon, as milliseconds from local midnight. -/
def noonMs : Int := 12 * 60 * 60 * 1000

/-- A remote store that rejects every MARK_TAKEN replay as already
taken. -/
def remoteRejects : QAction → RemoteOutcome :=
  fun a =>
    match a with
    | QAction.markTaken _ => RemoteOutcome.alreadyTakenRejection
    | QAction.upsertMedicine _ => RemoteOutcome.ok

/-- A one-element queue holding a MARK_TAKEN action. -/
def queueMark : List QAction := [QAction.markTaken ("m1-08:00")]

/-- A context in which the 08:00 slot is scheduled and the database
already stores a taken row for the 08:00 slot today. -/
def ctxTaken : MarkCtx :=
  { hasSession := true
    medicineTimes := some ["08:00"]
    existingTaken := [LogSlot.plain ("08:00")]
    remoteWriteFails := false }

/-- App state recording a completed reschedule earlier today. -/
def stateRanToday : AppState :=
  { live := ["daily-summary-u1"]
    sent := sentNone
    lastReschedule := some ("2026-10-11T05:00:00.000Z") }

/- ------------------------------------------------------------------ -/
/- Theorems for C6 and C2.                                             -/
/- ------------------------------------------------------------------ -/

/-- C6: for every valid wall-clock time HH:MM, the derived `pre` trigger
is the time minus 5 minutes and the `post` trigger is the time plus
5 minutes, modulo the 1440-minute day, with hour and minute each staying
in range (0–23, 0–59); in particular the arithmetic rolls over hour and
day boundaries in both directions. -/
theorem preTrigger_postTrigger_roll_over (h m : Int)
    (hh0 : 0 ≤ h) (hh : h < 24) (hm0 : 0 ≤ m) (hm : m < 60) :
    (preTrigger h m).1 * 60 + (preTrigger h m).2 = (h * 60 + m - 5) % 1440 ∧
    (postTrigger h m).1 * 60 + (postTrigger h m).2 = (h * 60 + m + 5) % 1440 ∧
    0 ≤ (preTrigger h m).1 ∧ (preTrigger h m).1 < 24 ∧
    0 ≤ (preTrigger h m).2 ∧ (preTrigger h m).2 < 60 ∧
    0 ≤ (postTrigger h m).1 ∧ (postTrigger h m).1 < 24 ∧
    0 ≤ (postTrigger h m).2 ∧ (postTrigger h m).2 < 60 := by
  simp only [preTrigger, postTrigger]
  split <;> split <;> split <;> split <;> omega

/-- Witness for C6 at the two boundary examples from the specification:
subtracting 5 minutes from 00:02 yields 23:57 and adding 5 minutes to
23:58 yields 00:03. -/
theorem preTrigger_postTrigger_roll_over_witness :
    preTrigger 0 2 = (23, 57) ∧ postTrigger 23 58 = (0, 3) ∧
    ((0 : Int) ≤ 0 ∧ (0 : Int) < 24 ∧ (0 : Int) ≤ 2 ∧ (2 : Int) < 60) ∧
    (preTrigger 0 2).1 * 60 + (preTrigger 0 2).2 = (0 * 60 + 2 - 5) % 1440 := by
  refine ⟨by decide, by decide, by decide, ?_⟩
  exact (preTrigger_postTrigger_roll_over 0 2 (by decide) (by decide)
    (by decide) (by decide)).1

/-- C2: a connected drain invokes the processor on every action in queue
order (the invocation trace is the queue itself), the persisted queue
afterwards holds exactly the actions whose processor call threw, in their
original relative order, and the processed count is the number of actions
whose call completed without error. -/
theorem processQueue_fifo_failed_kept {α : Type}
    (proc : α → Bool) (queue : List α) (connected : Bool)
    (hc : connected = true) :
    processQueue connected proc queue =
      (queue.filter (fun a => !(proc a)),
       (queue.filter (fun a => proc a)).length,
       queue) := by
  subst hc
  simp only [processQueue, if_pos]
  induction queue with
  | nil => rfl
  | cons a rest ih =>
    simp only [drainLoop, ih, List.filter]
    cases hpa : proc a <;> simp [hpa]

/-- Witness for C2: a three-element queue where exactly the second
action's processing fails; the first and third are removed, the second
remains, and the processed count is 2. -/
theorem processQueue_fifo_failed_kept_witness :
    processQueue true (fun a : Nat => a ≠ 1) [0, 1, 2] = ([1], 2, [0, 1, 2]) := by
  have h := processQueue_fifo_failed_kept (fun a : Nat => a ≠ 1)
    [0, 1, 2] true rfl
  rw [h]
  decide

/- ------------------------------------------------------------------ -/
/- Helper lemmas about the reconciliation pass.                        -/
/- ------------------------------------------------------------------ -/

/-- Every identifier of the shape produced by `getNotificationIds`
belongs to its medicine (the `startsWith` disjunct holds). -/
theorem belongsTo_mk (mid a b : String) :
    belongsTo mid (mid ++ "-" ++ a ++ "-" ++ b) = true := by
  have hdata : (mid ++ "-" ++ a ++ "-" ++ b).data
      = (mid ++ "-").data ++ (a ++ "-" ++ b).data := by
    simp [String.data_append]
  simp only [belongsTo, Bool.or_eq_true, strStartsWith]
  left
  rw [hdata]
  simp only [ List.isPrefixOf_iff_prefix]
  exact List.prefix_append _ _

theorem belongsTo_itemsForTime (mid : String) (t : HM) (it : Item)
    (h : it ∈ itemsForTime mid t) : belongsTo mid it.id = true := by
  simp only [itemsForTime, getNotificationIds, List.mem_cons,
    List.mem_singleton, List.not_mem_nil, or_false] at h
  rcases h with h | h | h <;> subst h <;> exact belongsTo_mk _ _ _

theorem gateKeep_of_desired (m : Medicine) (now : Int) (sent : String → Bool)
    (it : Item) (h : it ∈ desiredItems m now sent) :
    gateKeep now sent it = true := by
  simp only [desiredItems, List.mem_flatMap, List.mem_filter] at h
  obtain ⟨t, ht, hmem, hg⟩ := h
  exact hg

theorem belongsTo_desiredItems (m : Medicine) (now : Int)
    (sent : String → Bool) (it : Item) (h : it ∈ desiredItems m now sent) :
    belongsTo m.id it.id = true := by
  simp only [desiredItems, List.mem_flatMap, List.mem_filter] at h
  obtain ⟨t, ht, hmem, hg⟩ := h
  exact belongsTo_itemsForTime m.id t it hmem

theorem mem_expectedIds (m : Medicine) (now : Int) (sent : String → Bool)
    (i : String) :
    i ∈ expectedIds m now sent ↔
      ∃ it, it ∈ desiredItems m now sent ∧ it.id = i := by
  simp [expectedIds, List.mem_map]

theorem belongsTo_of_expected (m : Medicine) (now : Int)
    (sent : String → Bool) (i : String) (h : i ∈ expectedIds m now sent) :
    belongsTo m.id i = true := by
  obtain ⟨it, hit, rfl⟩ := (mem_expectedIds m now sent i).mp h
  exact belongsTo_desiredItems m now sent it hit

theorem mem_insertLive (l : List String) (a i : String) :
    i ∈ insertLive l a ↔ i ∈ l ∨ i = a := by
  by_cases hc : l.contains a = true
  · have ha : a ∈ l := by simpa using hc
    simp only [insertLive, if_pos hc]
    constructor
    · exact Or.inl
    · rintro (h | rfl)
      · exact h
      · exact ha
  · simp only [insertLive, if_neg hc, List.mem_append, List.mem_singleton]

theorem mem_foldl_insertLive (xs : List Item) (l : List String) (i : String) :
    i ∈ xs.foldl (fun acc it => insertLive acc it.id) l ↔
      i ∈ l ∨ ∃ it, it ∈ xs ∧ it.id = i := by
  induction xs generalizing l with
  | nil => simp
  | cons x rest ih =>
    simp only [List.foldl_cons, ih, mem_insertLive, List.mem_cons]
    constructor
    · rintro ((h | rfl) | ⟨it, hit, rfl⟩)
      · exact Or.inl h
      · exact Or.inr ⟨x, Or.inl rfl, rfl⟩
      · exact Or.inr ⟨it, Or.inr hit, rfl⟩
    · rintro (h | ⟨it, hx | hr, rfl⟩)
      · exact Or.inl (Or.inl h)
      · subst hx
        exact Or.inl (Or.inr rfl)
      · exact Or.inr ⟨it, hr, rfl⟩

theorem passGuard_false (m : Medicine) (hid : m.id ≠ "") (ht : m.times ≠ []) :
    (m.id == "" || m.times.isEmpty) = false := by
  simp only [Bool.or_eq_false_iff, beq_eq_false_iff_ne, ne_eq,
    List.isEmpty_eq_false]
  exact ⟨hid, ht⟩

theorem pass_live_mem (m : Medicine) (now : Int) (sent : String → Bool)
    (live : List String) (hid : m.id ≠ "") (ht : m.times ≠ []) (i : String) :
    i ∈ (scheduleAllRemindersForMedicine m now sent live).live ↔
      i ∈ liveAfterCancel m now sent live ∨
      ∃ it, it ∈ toSchedule m now sent live ∧ it.id = i := by
  rw [scheduleAllRemindersForMedicine, if_neg (by simp [passGuard_false m hid ht])]
  exact mem_foldl_insertLive _ _ _

/-- Convergence of one pass: an identifier is live-and-belonging after
the pass iff it is in the gated desired identity set. -/
theorem pass_converges (m : Medicine) (now : Int) (sent : String → Bool)
    (live : List String) (hid : m.id ≠ "") (ht : m.times ≠ []) (i : String) :
    (i ∈ (scheduleAllRemindersForMedicine m now sent live).live ∧
        belongsTo m.id i = true) ↔ i ∈ expectedIds m now sent := by
  rw [pass_live_mem m now sent live hid ht]
  constructor
  · rintro ⟨hin | ⟨it, hsch, rfl⟩, hb⟩
    · simp only [liveAfterCancel, List.mem_filter, hb, Bool.not_true,
        Bool.false_or] at hin
      simpa using hin.2
    · simp only [toSchedule, List.mem_filter] at hsch
      exact (mem_expectedIds m now sent _).mpr ⟨it, hsch.1, rfl⟩
  · intro hE
    refine ⟨?_, belongsTo_of_expected m now sent i hE⟩
    obtain ⟨it, hD, rfl⟩ := (mem_expectedIds m now sent i).mp hE
    by_cases hc : (medicineNotifs m live).contains it.id = true
    · left
      have hmem : it.id ∈ medicineNotifs m live := by simpa using hc
      simp only [medicineNotifs, List.mem_filter] at hmem
      simp only [liveAfterCancel, List.mem_filter]
      exact ⟨hmem.1, by simp [hE]⟩
    · right
      have hc' : it.id ∉ medicineNotifs m live := by simpa using hc
      refine ⟨it, ?_, rfl⟩
      simp only [toSchedule, List.mem_filter]
      exact ⟨hD, by simp [hc']⟩

theorem schedCalls_sub_expected (m : Medicine) (now : Int)
    (sent : String → Bool) (live : List String) (i : String)
    (h : i ∈ (scheduleAllRemindersForMedicine m now sent live).schedCalls) :
    i ∈ expectedIds m now sent := by
  rw [scheduleAllRemindersForMedicine] at h
  by_cases hg : (m.id == "" || m.times.isEmpty) = true
  · rw [if_pos hg] at h
    simp at h
  · rw [if_neg hg] at h
    obtain ⟨it, hit, rfl⟩ := List.mem_map.mp h
    rw [toSchedule, List.mem_filter] at hit
    exact (mem_expectedIds m now sent it.id).mpr ⟨it, hit.1, rfl⟩

/-- C1 (amended): for every medicine that passes the scheduling guard
(nonempty id and nonempty times), running the reconciliation pass twice
in succession — with no intervening change to the schedule, the sent
flags, the live registry (the second run starts from the first run's
output), or the clock — issues zero schedule calls and zero cancel calls
on the second run and leaves the registry unchanged; and the pass
converges the medicine's live entries to exactly the gated desired
identity set.  Medicines failing the guard are skipped unchanged, so for
them the convergence half fails (see the counterexample). -/
theorem scheduleAll_idempotent_and_converges (m : Medicine) (now : Int)
    (sent : String → Bool) (live : List String)
    (hid : m.id ≠ "") (ht : m.times ≠ []) :
    (scheduleAllRemindersForMedicine m now sent
        (scheduleAllRemindersForMedicine m now sent live).live).schedCalls = [] ∧
    (scheduleAllRemindersForMedicine m now sent
        (scheduleAllRemindersForMedicine m now sent live).live).cancelCalls = [] ∧
    (scheduleAllRemindersForMedicine m now sent
        (scheduleAllRemindersForMedicine m now sent live).live).live =
      (scheduleAllRemindersForMedicine m now sent live).live ∧
    (∀ i, (i ∈ (scheduleAllRemindersForMedicine m now sent live).live ∧
        belongsTo m.id i = true) ↔ i ∈ expectedIds m now sent) := by
  have hconv := pass_converges m now sent live hid ht
  have hMN : ∀ i, i ∈ medicineNotifs m
      (scheduleAllRemindersForMedicine m now sent live).live ↔
      i ∈ expectedIds m now sent := by
    intro i
    rw [medicineNotifs, List.mem_filter]
    exact hconv i
  have hTS2 : toSchedule m now sent
      (scheduleAllRemindersForMedicine m now sent live).live = [] := by
    rw [toSchedule, List.filter_eq_nil_iff]
    intro it hD
    have hE : it.id ∈ expectedIds m now sent :=
      (mem_expectedIds m now sent it.id).mpr ⟨it, hD, rfl⟩
    have hin : it.id ∈ medicineNotifs m
        (scheduleAllRemindersForMedicine m now sent live).live :=
      (hMN it.id).mpr hE
    simp [hin]
  have hTC2 : toCancel m now sent
      (scheduleAllRemindersForMedicine m now sent live).live = [] := by
    rw [toCancel, List.filter_eq_nil_iff]
    intro i hi
    have hE : i ∈ expectedIds m now sent := (hMN i).mp hi
    simp [hE]
  have hLAC2 : liveAfterCancel m now sent
      (scheduleAllRemindersForMedicine m now sent live).live =
      (scheduleAllRemindersForMedicine m now sent live).live := by
    rw [liveAfterCancel, List.filter_eq_self]
    intro i hi
    by_cases hb : belongsTo m.id i = true
    · have hE : i ∈ expectedIds m now sent := (hconv i).mp ⟨hi, hb⟩
      simp [hE]
    · have hb' : belongsTo m.id i = false := by simpa using hb
      simp [hb']
  refine ⟨?_, ?_, ?_, hconv⟩
  · rw [scheduleAllRemindersForMedicine, if_neg (by simp [passGuard_false m hid ht])]
    simp [hTS2]
  · rw [scheduleAllRemindersForMedicine, if_neg (by simp [passGuard_false m hid ht])]
    simpa using hTC2
  · rw [scheduleAllRemindersForMedicine, if_neg (by simp [passGuard_false m hid ht])]
    simp [hTS2, hLAC2]

/-- Witness for C1 at a concrete medicine, stale registry and clock. -/
theorem scheduleAll_idempotent_and_converges_witness :
    med1.id ≠ "" ∧ med1.times ≠ [] ∧
    (scheduleAllRemindersForMedicine med1 0 sentNone
        (scheduleAllRemindersForMedicine med1 0 sentNone staleLive).live).schedCalls
      = [] := by
  refine ⟨by decide, by decide, ?_⟩
  exact (scheduleAll_idempotent_and_converges med1 0 sentNone staleLive
    (by decide) (by decide)).1

/-- Counterexample for C1 as stated: a medicine whose times list is empty
fails the guard and is skipped, so its stale live entry survives the pass
even though the desired set is empty — the pass does not converge the
live set to the desired set for every medicine. -/
theorem scheduleAll_convergence_counterexample :
    ¬ (∀ i, (i ∈ (scheduleAllRemindersForMedicine medNoTimes 0 sentNone
        staleLive).live ∧ belongsTo medNoTimes.id i = true) ↔
        i ∈ expectedIds medNoTimes 0 sentNone) :=
  fun h => absurd ((h ("m1-09:00-due")).mp ⟨by decide, by decide⟩) (by decide)

/-- C3: once `markNotificationAsSentToday` has recorded an identity in
today's sent flags, a reconciliation pass run against those flags (same
calendar day) neither admits that identity into the gated desired set
nor issues a schedule call for it. -/
theorem markSent_never_rescheduled (m : Medicine) (now : Int)
    (sent : String → Bool) (live : List String) (id : String) :
    id ∉ expectedIds m now (markNotificationAsSentToday sent id) ∧
    id ∉ (scheduleAllRemindersForMedicine m now
        (markNotificationAsSentToday sent id) live).schedCalls := by
  have hnot : id ∉ expectedIds m now (markNotificationAsSentToday sent id) := by
    intro hE
    obtain ⟨it, hD, hide⟩ := (mem_expectedIds m now
      (markNotificationAsSentToday sent id) id).mp hE
    have hg := gateKeep_of_desired m now (markNotificationAsSentToday sent id) it hD
    simp only [gateKeep, Bool.and_eq_true, Bool.not_eq_true'] at hg
    rw [hide] at hg
    simp [markNotificationAsSentToday] at hg
  exact ⟨hnot, fun hs => hnot (schedCalls_sub_expected m now
    (markNotificationAsSentToday sent id) live id hs)⟩

/- ------------------------------------------------------------------ -/
/- Stock alert theorems (C4, C5).                                      -/
/- ------------------------------------------------------------------ -/

theorem emit_sets_lastStockAlert (st : StockState) (day : String)
    (m : Medicine) (now : Int) (a : StockAlert)
    (h1 : (checkAndSendStockAlerts st day m now).2 = some a) :
    (checkAndSendStockAlerts st day m now).1.lastStockAlert m.id
      = some now := by
  cases hq : m.quantity with
  | none => simp [checkAndSendStockAlerts, hq] at h1
  | some q =>
    by_cases hw : stockCooldownActive st.lastStockAlert m.id now = true
    · simp [checkAndSendStockAlerts, hq, hw] at h1
    · by_cases hz : q = 0
      · simp [checkAndSendStockAlerts, hq, hw, hz, setTimestamp]
      · by_cases hlow : q ≤ effThreshold m.refill_threshold ∧ 0 < q
        · simp [checkAndSendStockAlerts, hq, hw, hz, hlow, setTimestamp]
        · simp [checkAndSendStockAlerts, hq, hw, hz, hlow] at h1

/-- C4: two consecutive stock evaluations for the same medicine whose
moments are less than 24 hours apart emit at most one alert in total:
if the first evaluation emits an alert of either class, the second
(with possibly changed quantity) emits nothing, because both classes
are gated on the one shared `last_stock_alert_<id>` record. -/
theorem stockAlerts_share_cooldown (st : StockState) (day1 day2 : String)
    (m1 m2 : Medicine) (now1 now2 : Int) (a : StockAlert)
    (hid : m2.id = m1.id)
    (h1 : (checkAndSendStockAlerts st day1 m1 now1).2 = some a)
    (hgap : now2 - now1 < COOLDOWN) :
    (checkAndSendStockAlerts (checkAndSendStockAlerts st day1 m1 now1).1
        day2 m2 now2).2 = none := by
  have hstate := emit_sets_lastStockAlert st day1 m1 now1 a h1
  generalize hg : (checkAndSendStockAlerts st day1 m1 now1).1 = st1
  rw [hg] at hstate
  cases hq2 : m2.quantity with
  | none => simp [checkAndSendStockAlerts, hq2]
  | some q2 =>
    have hw2 : stockCooldownActive st1.lastStockAlert m2.id now2 = true := by
      rw [stockCooldownActive, hid, hstate]
      exact decide_eq_true hgap
    simp [checkAndSendStockAlerts, hq2, hw2]

/-- Witness for C4: an out-of-stock alert at time 0 silences a would-be
low-stock alert one hour later for the same medicine. -/
theorem stockAlerts_share_cooldown_witness :
    (checkAndSendStockAlerts stockEmpty ("d1") medOut 0).2
      = some (StockAlert.out ("m1")) ∧
    medLow3.id = medOut.id ∧ (3600000 : Int) - 0 < COOLDOWN ∧
    (checkAndSendStockAlerts (checkAndSendStockAlerts stockEmpty ("d1")
        medOut 0).1 ("d2") medLow3 3600000).2 = none := by
  refine ⟨by decide, rfl, by decide, ?_⟩
  exact stockAlerts_share_cooldown stockEmpty ("d1") ("d2") medOut medLow3
    0 3600000 (StockAlert.out ("m1")) rfl (by decide) (by decide)

/-- Counterexample for C5 as stated: with a stored refill threshold of 0
(a falsy JS value) and quantity 3, the code emits a low-stock alert even
though the quantity is neither zero nor at most the stored threshold, so
the claimed classification (which would emit no alert) is wrong. -/
theorem stockClassification_counterexample :
    (checkAndSendStockAlerts stockEmpty ("d") medThr0 0).2 ≠ none ∧
    medThr0.quantity = some 3 ∧ medThr0.refill_threshold = some 0 ∧
    ¬ ((3 : Int) = 0) ∧ ¬ ((3 : Int) ≤ 0) := by
  decide

/-- C5 (amended): a single evaluation outside the cooldown window (no
alert timestamp within 24 hours on either of the medicine's two cooldown
keys) classifies by precedence: quantity exactly zero emits the
out-of-stock alert; otherwise quantity positive and at most the
*effective* refill threshold — the stored threshold when present and
nonzero, 5 otherwise — emits the low-stock alert; otherwise no alert.
The return carries at most one alert, so the classes are never both
emitted in one evaluation. -/
theorem stockClassification (st : StockState) (day : String) (m : Medicine)
    (now q : Int) (hq : m.quantity = some q)
    (hcool1 : stockCooldownActive st.lastStockAlert m.id now = false)
    (hcool2 : stockCooldownActive st.lastOutOfStock m.id now = false) :
    (q = 0 →
      (checkAndSendStockAlerts st day m now).2 = some (StockAlert.out m.id)) ∧
    (q ≠ 0 → 0 < q → q ≤ effThreshold m.refill_threshold →
      (checkAndSendStockAlerts st day m now).2 =
        some (StockAlert.low m.id q (effThreshold m.refill_threshold))) ∧
    (q ≠ 0 → ¬ (0 < q ∧ q ≤ effThreshold m.refill_threshold) →
      (checkAndSendStockAlerts st day m now).2 = none) := by
  refine ⟨?_, ?_, ?_⟩
  · intro hz
    subst hz
    simp [checkAndSendStockAlerts, hq, hcool1, sendOutOfStockAlert, hcool2]
  · intro hz hpos hle
    have hlow : q ≤ effThreshold m.refill_threshold ∧ 0 < q := ⟨hle, hpos⟩
    simp [checkAndSendStockAlerts, hq, hcool1, hz, hlow, sendLowStockAlert]
  · intro hz hnot
    have hlow : ¬ (q ≤ effThreshold m.refill_threshold ∧ 0 < q) :=
      fun hc => hnot ⟨hc.2, hc.1⟩
    simp [checkAndSendStockAlerts, hq, hcool1, hz, hlow]

/-- Witness for C5 at the out-of-stock case. -/
theorem stockClassification_witness :
    medOut.quantity = some 0 ∧
    stockCooldownActive stockEmpty.lastStockAlert medOut.id 0 = false ∧
    stockCooldownActive stockEmpty.lastOutOfStock medOut.id 0 = false ∧
    (checkAndSendStockAlerts stockEmpty ("d") medOut 0).2
      = some (StockAlert.out medOut.id) := by
  refine ⟨rfl, by decide, by decide, ?_⟩
  exact (stockClassification stockEmpty ("d") medOut 0 0 rfl (by decide)
    (by decide)).1 rfl

/- ------------------------------------------------------------------ -/
/- Theorems for C7, C8, C9, C10.                                       -/
/- ------------------------------------------------------------------ -/

theorem cancelSeq_no_throw (f : Fail) (hc : ∀ i, f.cancelFails i = false)
    (live xs : List String) : (cancelSeq f live xs).2.2 = false := by
  induction xs generalizing live with
  | nil => rfl
  | cons i rest ih => simp [cancelSeq, hc, ih]

theorem passE_no_throw (f : Fail) (m : Medicine) (now : Int)
    (sent : String → Bool) (live : List String)
    (hga : f.getAllFails = false) (hc : ∀ i, f.cancelFails i = false) :
    (scheduleAllRemindersE f m now sent live).threw = false := by
  rw [scheduleAllRemindersE]
  by_cases hg : (m.id == "" || m.times.isEmpty) = true
  · rw [if_pos hg]
  · rw [if_neg hg, hga]
    simp [cancelSeq_no_throw f hc]

/-- C7 (amended): per-item schedule-call failures and stock-alert
failures are isolated — if neither the registry query nor any cancel
call fails, the loop attempts every medicine even when arbitrary
schedule calls throw, and the stock monitor never propagates an error to
its caller.  However (see the counterexample) a registry-query or cancel
failure during one medicine's convergence propagates out of
`scheduleAllRemindersForMedicine` and aborts the pass for the remaining
medicines. -/
theorem reschedule_isolation (f : Fail) (now : Int) (sent : String → Bool)
    (meds : List Medicine) (live : List String)
    (hga : f.getAllFails = false) (hc : ∀ i, f.cancelFails i = false) :
    (reschedLoop f now sent meds live).attempted = meds.length ∧
    (∀ st day m tnow, (checkAndSendStockAlertsE f st day m tnow).threw = false) := by
  constructor
  · induction meds generalizing live with
    | nil => rfl
    | cons m rest ih =>
      have hth := passE_no_throw f m now sent live hga hc
      simp [reschedLoop, hth, ih]
  · intro st day m tnow
    cases hq : m.quantity with
    | none => simp [checkAndSendStockAlertsE, hq]
    | some q => simp only [checkAndSendStockAlertsE, hq]; split_ifs <;> rfl

/-- Witness for C7 (amended) with schedule failures injected for every
identifier: both medicines are still attempted. -/
theorem reschedule_isolation_witness :
    (reschedLoop
      { getAllFails := false, cancelFails := fun _ => false,
        schedFails := fun _ => true }
      noonMs sentNone [medA, medB] staleLiveA).attempted = [medA, medB].length := by
  exact (reschedule_isolation
    { getAllFails := false, cancelFails := fun _ => false,
      schedFails := fun _ => true }
    noonMs sentNone [medA, medB] staleLiveA rfl (fun _ => rfl)).1

/-- Counterexample for C7 as stated: when the cancel call for medicine
`a1`'s stale entry throws, the pass aborts after the first medicine —
the whole run issues no schedule call at all — although an isolated pass
for medicine `b1` would have issued schedule calls. -/
theorem reschedule_isolation_counterexample :
    (reschedLoop failCancelA noonMs sentNone [medA, medB] staleLiveA).attempted
        = 1 ∧
    [medA, medB].length = 2 ∧
    (reschedLoop failCancelA noonMs sentNone [medA, medB] staleLiveA).schedCalls
        = [] ∧
    (scheduleAllRemindersForMedicine medB noonMs sentNone staleLiveA).schedCalls
        ≠ [] := by
  decide

theorem drainLoop_eq {α : Type} (proc : α → Bool) (queue : List α) :
    drainLoop proc queue =
      (queue.filter (fun a => !(proc a)),
       (queue.filter (fun a => proc a)).length, queue) := by
  induction queue with
  | nil => rfl
  | cons a rest ih =>
    simp only [drainLoop, ih, List.filter]
    cases hpa : proc a <;> simp [hpa]

theorem syncProcessor_total (remote : QAction → RemoteOutcome) (a : QAction) :
    syncProcessor remote a = true := by
  cases a <;> rfl

/-- C8: in a connected drain, a MARK_TAKEN action whose remote call is
rejected as already taken ends as a successful terminal outcome — it is
counted processed and removed from the persisted queue rather than kept
for retry.  (The processor ignores the in-band error of the supabase
client, so it reports success for every remote outcome.) -/
theorem markTaken_alreadyTaken_terminal_success
    (remote : QAction → RemoteOutcome) (q : List QAction) (p : String)
    (hmem : QAction.markTaken p ∈ q)
    (hrej : remote (QAction.markTaken p) = RemoteOutcome.alreadyTakenRejection) :
    QAction.markTaken p ∉ (processQueue true (syncProcessor remote) q).1 ∧
    (processQueue true (syncProcessor remote) q).1 = [] ∧
    (processQueue true (syncProcessor remote) q).2.1 = q.length := by
  have hempty : (processQueue true (syncProcessor remote) q).1 = [] := by
    simp only [processQueue, if_pos, drainLoop_eq]
    rw [List.filter_eq_nil_iff]
    intro a _
    simp [syncProcessor_total remote a]
  refine ⟨by simp [hempty], hempty, ?_⟩
  simp only [processQueue, if_pos, drainLoop_eq]
  rw [List.filter_eq_self.mpr (fun a _ => syncProcessor_total remote a)]

/-- Witness for C8 at a one-element queue whose MARK_TAKEN replay is
rejected as already taken. -/
theorem markTaken_alreadyTaken_terminal_success_witness :
    QAction.markTaken ("m1-08:00") ∉
      (processQueue true (syncProcessor remoteRejects) queueMark).1 ∧
    (processQueue true (syncProcessor remoteRejects) queueMark).1 = [] ∧
    (processQueue true (syncProcessor remoteRejects) queueMark).2.1
      = queueMark.length := by
  exact markTaken_alreadyTaken_terminal_success remoteRejects queueMark
    ("m1-08:00") (by decide) (by decide)

theorem selectIdOnly_no_match (rows : List LogSlot) (t : String) :
    (selectIdOnly rows).any (fun l => slotMatches l t) = false := by
  induction rows with
  | nil => rfl
  | cons r rest ih => simpa [selectIdOnly, slotMatches] using ih

theorem markDoseTakenBody_ne_alreadyTaken (ctx : MarkCtx)
    (st : Option String) :
    markDoseTakenBody ctx st ≠ Except.error MarkErr.alreadyTaken := by
  cases st with
  | none =>
    simp only [markDoseTakenBody]
    split_ifs <;> simp
  | some t =>
    cases hm : ctx.medicineTimes with
    | none =>
      simp only [markDoseTakenBody, hm]
      split_ifs <;> simp
    | some times =>
      simp only [markDoseTakenBody, hm, selectIdOnly_no_match]
      split_ifs <;> simp_all

/-- C9 (code bug): the already-taken rejection of the direct
`markDoseTaken` call is dead code.  The duplicate-check query fetches
rows with `.select('id')` while the filter reads `log.time_scheduled`,
so every row fails the `!log.time_scheduled` guard and no input can make
the call raise the already-taken error; at the failing input — the
08:00 slot scheduled, with a taken row for that slot already stored
today — the call completes online, inserting a second log row and
decrementing the quantity again, although the stored rows do match the
slot. -/
theorem markDoseTaken_duplicate_not_rejected :
    (∀ (ctx : MarkCtx) (st : Option String),
      (markDoseTaken ctx st).outcome ≠ MarkOutcome.thrown MarkErr.alreadyTaken) ∧
    markDoseTaken ctxTaken (some ("08:00")) =
      { inserted := true, decremented := true, enqueued := false,
        outcome := MarkOutcome.okOnline } ∧
    ctxTaken.existingTaken.any (fun l => slotMatches l ("08:00")) = true := by
  refine ⟨?_, by decide, by decide⟩
  intro ctx st
  cases hb : markDoseTakenBody ctx st with
  | ok u => simp [markDoseTaken, hb]
  | error e =>
    have hne := markDoseTakenBody_ne_alreadyTaken ctx st
    rw [hb] at hne
    have he : e ≠ MarkErr.alreadyTaken := fun h => hne (by rw [h])
    rw [markDoseTaken, hb]
    cases e
    case alreadyTaken => exact absurd rfl he
    all_goals decide

/-- C10: when `last_notification_reschedule` carries today's date part,
a later invocation of the full reschedule on the same day returns with
the durable state unchanged and issues no schedule call and no cancel
call. -/
theorem rescheduleAll_skips_same_day (st : AppState) (today nowIso : String)
    (now : Int) (session : Option String)
    (medicines : Option (List Medicine)) (last : String)
    (hlast : st.lastReschedule = some last)
    (hday : dayPart last = today) :
    rescheduleAllMedicineNotifications st today nowIso now session medicines =
      { state := st, cancelCalls := [], schedCalls := [] } := by
  simp [rescheduleAllMedicineNotifications, hlast, hday]

/-- Witness for C10 on 2026-10-11, with a reschedule recorded at 05:00
UTC the same day. -/
theorem rescheduleAll_skips_same_day_witness :
    rescheduleAllMedicineNotifications stateRanToday ("2026-10-11")
        ("2026-10-11T18:00:00.000Z") 0 (some ("u1")) (some [med1]) =
      { state := stateRanToday, cancelCalls := [], schedCalls := [] } := by
  exact rescheduleAll_skips_same_day stateRanToday ("2026-10-11")
    ("2026-10-11T18:00:00.000Z") 0 (some ("u1")) (some [med1])
    ("2026-10-11T05:00:00.000Z") rfl (by decide)
